import Mathlib

/-!
Verification of the platform subsystem of `cargo-eval` (`src/platform.rs`):
directory resolution, path encoding/decoding, timestamps, and the cache
migration engine.  Each definition is a shallow embedding of the
corresponding Rust item; paths are modelled as lists of components, file
contents as opaque naturals, and the filesystem as an explicit record.
-/

namespace CargoEval

/-- Embeds `MigrationKind` (platform.rs lines 11-15). -/
inductive MigrationKind
  | DryRun
  | ForReal
deriving DecidableEq

/-- Embeds `MigrationKind::for_real` (platform.rs lines 18-20). -/
def MigrationKind.for_real : MigrationKind → Bool
  | .ForReal => true
  | .DryRun => false

/-- A filesystem path, as its list of components. -/
abbrev FsPath := List String

/-! ## PathCodec -/

/-- Outcome of `read_path` once the reader has delivered its bytes.
`success` is the `Ok` return; `corruptionError` stands for returning an
`io::Error` of kind `InvalidData` (no code path in either platform's
`read_path` constructs one — the constructor exists so claims about error
outcomes can be stated); `panic` stands for an aborting `unwrap()` such as
the one on platform.rs line 347. -/
inductive ReadOutcome
  | success (data : List Nat)
  | corruptionError
  | panic
deriving DecidableEq

/-- Embeds unix `write_path` (platform.rs lines 192-195): the path's native
byte representation is written unchanged.  Paths on unix are byte
sequences, so the path argument *is* its byte list. -/
def write_path_unix (pathBytes : List Nat) : List Nat := pathBytes

/-- Embeds unix `read_path` (platform.rs lines 197-203):
`OsStr::from_bytes(&buf)` never fails, so every byte sequence decodes. -/
def read_path_unix (bytes : List Nat) : ReadOutcome := .success bytes

/-- Embeds windows `write_path` (platform.rs lines 329-337): each 16-bit
code unit of the path is written as two bytes, low byte first.  The `as u8`
casts are the `% 256` truncations. -/
def write_path_windows (pathWords : List Nat) : List Nat :=
  pathWords.flatMap (fun w => [w % 256, (w / 256) % 256])

/-- Embeds the pairing loop of windows `read_path` (platform.rs lines
344-349): `while let Some(lo) = it.next() { let hi = it.next().unwrap(); … }`.
A trailing unpaired byte hits `unwrap()` on `None`, which panics —
modelled as `none`. -/
def read_path_windows_loop : List Nat → Option (List Nat)
  | [] => some []
  | [_] => none
  | lo :: hi :: rest =>
    (read_path_windows_loop rest).map (fun ws => (lo + 256 * hi) :: ws)

/-- Embeds windows `read_path` (platform.rs lines 339-352):
`OsString::from_wide` is lossless on arbitrary 16-bit units (unpaired
surrogates included), so the decoded path is the word list itself. -/
def read_path_windows (bytes : List Nat) : ReadOutcome :=
  match read_path_windows_loop bytes with
  | some ws => .success ws
  | none => .panic

/-! ## FreshnessOracle -/

/-- Embeds `current_time` (platform.rs lines 30-45) on a clock reading of
`sec` seconds plus `nsec` nanoseconds since the UNIX epoch. -/
def current_time (sec nsec : Int) : Nat :=
  if sec < 0 ∨ nsec < 0 then 0
  else sec.toNat * 1000 + nsec.toNat / 1000000

/-- Embeds unix `file_last_modified` (platform.rs lines 64-71).  `mtime` is
the metadata's modification time in seconds since the UNIX epoch, `none`
when the metadata call fails (`unwrap_or(0)`). -/
def file_last_modified_unix (mtime : Option Int) : Nat :=
  (max 0 (mtime.getD 0)).toNat * 1000

/-- Milliseconds between 1601-01-01 and 1970-01-01 (platform.rs line 241). -/
def MS_BETWEEN_1601_1970 : Nat := 11644473600000

/-- Embeds windows `file_last_modified` (platform.rs lines 238-251).
`lastWrite` is `last_write_time()` in 100 ns units since 1601, `none` when
metadata is unavailable.  `Nat` subtraction is the `saturating_sub`. -/
def file_last_modified_windows (lastWrite : Option Nat) : Nat :=
  (lastWrite.getD 0) / 10000 - MS_BETWEEN_1601_1970

/-! ## DirectoryResolver -/

/-- Blame category of a `MainError` (error module). -/
inductive Blame
  | Human
  | Internal
deriving DecidableEq

/-- Environment seen by the unix resolver: the values of `$CARGO_HOME` and
`$HOME`, and the filesystem's existence oracle for `.exists()` calls. -/
structure UnixEnv where
  cargo_home : Option FsPath
  home : Option FsPath
  path_exists : FsPath → Bool

/-- Embeds unix `get_cache_dir` (platform.rs lines 78-100): `$CARGO_HOME`
first, preferring its `.cargo` subdirectory when that exists and still
holds `script-cache` or `binary-cache`; else `$HOME/.cargo`; else a
Human-blamed error. -/
def get_cache_dir (e : UnixEnv) : Except (Blame × String) FsPath :=
  match e.cargo_home with
  | some home =>
    let old_home := home ++ [".cargo"]
    if e.path_exists old_home then
      if e.path_exists (old_home ++ ["script-cache"])
          || e.path_exists (old_home ++ ["binary-cache"]) then
        .ok old_home
      else
        .ok home
    else
      .ok home
  | none =>
    match e.home with
    | some home => .ok (home ++ [".cargo"])
    | none => .error (.Human, "neither $CARGO_HOME nor $HOME is defined")

/-- Embeds unix `get_config_dir` (platform.rs lines 107-110): delegates to
`get_cache_dir`. -/
def get_config_dir (e : UnixEnv) : Except (Blame × String) FsPath :=
  get_cache_dir e

/-- Known-folder ids used by the windows resolvers (platform.rs lines
261, 273). -/
inductive KnownFolderId
  | LocalAppData
  | RoamingAppData
deriving DecidableEq

/-- Environment seen by the windows resolvers: the result of
`SHGetKnownFolderPath` per folder id (`.error` carries the HRESULT). -/
structure WinEnv where
  known_folder : KnownFolderId → Except Int FsPath

/-- Embeds windows `get_cache_dir` (platform.rs lines 260-265):
`FOLDERID_LocalAppData` joined with `Cargo`. -/
def get_cache_dir_windows (e : WinEnv) : Except Int FsPath :=
  (e.known_folder .LocalAppData).map (fun dir => dir ++ ["Cargo"])

/-- Embeds windows `get_config_dir` (platform.rs lines 272-277):
`FOLDERID_RoamingAppData` joined with `Cargo`. -/
def get_config_dir_windows (e : WinEnv) : Except Int FsPath :=
  (e.known_folder .RoamingAppData).map (fun dir => dir ++ ["Cargo"])

/-! ## MigrationEngine -/

/-- Contents of the legacy root `$CARGO_HOME/.cargo`: each cache subtree is
`none` when absent or `some c` with `c` its (opaque) contents, and `other`
records whether any further entry is present. -/
structure OldBase where
  script : Option Nat
  binary : Option Nat
  other : Bool
deriving DecidableEq

/-- Filesystem-and-environment state seen by the unix migration:
`$CARGO_HOME` (`none` when unset), the legacy root `$CARGO_HOME/.cargo`
(`none` when it does not exist), and the two new-location subtrees
directly under `$CARGO_HOME`. -/
structure FsState where
  cargo_home : Option FsPath
  old_base : Option OldBase
  new_script : Option Nat
  new_binary : Option Nat
deriving DecidableEq

/-- The legacy script-cache subtree `$CARGO_HOME/.cargo/script-cache` of a
state, `none` when it (or the legacy root) does not exist. -/
def FsState.old_script (s : FsState) : Option Nat :=
  s.old_base.bind fun ob => ob.script

/-- The legacy binary-cache subtree `$CARGO_HOME/.cargo/binary-cache` of a
state, `none` when it (or the legacy root) does not exist. -/
def FsState.old_binary (s : FsState) : Option Nat :=
  s.old_base.bind fun ob => ob.binary

/-- One entry of the migration's user-facing log, one constructor per
`log.push(format!(…))` template in `migrate_0_2_0`, carrying the paths the
source interpolates. -/
inductive LogEntry
  | didNotMove (src dst : FsPath)
  | moved (src dst : FsPath)
  | removedEmpty (dir : FsPath)
  | notRemoving (dir : FsPath)
deriving DecidableEq

/-- `{:?}` rendering of a path in a `format!` string. -/
def pathDebug (p : FsPath) : String :=
  "\"" ++ String.intercalate "/" p ++ "\""

/-- The exact `format!` strings of platform.rs lines 140, 147/166, 179,
182. -/
def LogEntry.render : LogEntry → String
  | .didNotMove src dst =>
    "Did not move " ++ pathDebug src ++ ": new location " ++ pathDebug dst
      ++ " already exists."
  | .moved src dst => "Moved " ++ pathDebug src ++ " to " ++ pathDebug dst ++ "."
  | .removedEmpty dir => "Removed empty directory " ++ pathDebug dir
  | .notRemoving dir => "Not removing " ++ pathDebug dir ++ ": not empty."

/-- Embeds `migrate_0_2_0` (platform.rs lines 121-190) as a function from
the starting state to the final state and the pushed log entries.  The
source's `fs` calls are modelled directly on `FsState`; in `DryRun` the
renames and the removal are skipped exactly as `kind.for_real()` gates
them.  Note: the source's binary-cache move branch (line 166) pushes
`format!("Moved {:?} to {:?}.", old_script_cache, new_script_cache)` — the
*script*-cache paths — and the embedding reproduces that. -/
def migrate_0_2_0 (kind : MigrationKind) (s : FsState) : FsState × List LogEntry :=
  match s.cargo_home with
  | none => (s, [])
  | some home =>
    match s.old_base with
    | none => (s, [])
    | some ob =>
      let old_base_path := home ++ [".cargo"]
      let old_script := home ++ [".cargo", "script-cache"]
      let new_script := home ++ ["script-cache"]
      let step1 : OldBase × Option Nat × List LogEntry :=
        match ob.script, s.new_script with
        | some _, some c' =>
          (ob, some c', [.didNotMove old_script new_script])
        | some c, none =>
          if kind.for_real then
            ({ ob with script := none }, some c, [.moved old_script new_script])
          else
            (ob, none, [.moved old_script new_script])
        | none, ns => (ob, ns, [])
      let ob1 := step1.1
      let ns1 := step1.2.1
      let log1 := step1.2.2
      let old_binary := home ++ [".cargo", "binary-cache"]
      let new_binary := home ++ ["binary-cache"]
      let step2 : OldBase × Option Nat × List LogEntry :=
        match ob1.binary, s.new_binary with
        | some _, some c' =>
          (ob1, some c', [.didNotMove old_binary new_binary])
        | some c, none =>
          if kind.for_real then
            ({ ob1 with binary := none }, some c, [.moved old_script new_script])
          else
            (ob1, none, [.moved old_script new_script])
        | none, nb => (ob1, nb, [])
      let ob2 := step2.1
      let nb2 := step2.2.1
      let log2 := step2.2.2
      if ob2.script.isNone && ob2.binary.isNone && !ob2.other then
        ({ cargo_home := s.cargo_home
           old_base := if kind.for_real then none else some ob2
           new_script := ns1
           new_binary := nb2 },
         log1 ++ log2 ++ [.removedEmpty old_base_path])
      else
        ({ cargo_home := s.cargo_home
           old_base := some ob2
           new_script := ns1
           new_binary := nb2 },
         log1 ++ log2 ++ [.notRemoving old_base_path])

/-- Embeds `migrate_old_data` (platform.rs lines 112-119): runs the
migration and returns the final state with the user-facing log as the
rendered strings of the pushed entries (the `Vec<String>`). -/
def migrate_old_data (kind : MigrationKind) (s : FsState) : FsState × List String :=
  let r := migrate_0_2_0 kind s
  (r.1, r.2.map LogEntry.render)

/-- Whether a log entry reports a skipped or impossible action rather
than a performed mutation: `didNotMove` and `notRemoving` accompany no
filesystem change, while `moved` and `removedEmpty` accompany one. -/
def LogEntry.is_noop : LogEntry → Bool
  | .didNotMove _ _ => true
  | .notRemoving _ => true
  | .moved _ _ => false
  | .removedEmpty _ => false

/-- Failure injection for the three mutating filesystem calls of
`migrate_0_2_0`: the `fs::rename` of the script-cache move, the
`fs::rename` of the binary-cache move, and the final `fs::remove_dir`.
`true` means that call returns an error. -/
structure FsFailures where
  rename_script : Bool
  rename_binary : Bool
  remove_dir : Bool

/-- Embeds `migrate_0_2_0` together with the fallibility of its mutating
calls: each `?` propagates the injected error immediately, returning the
state reached and the log accumulated so far (the `log.push` after a
failing call never runs).  The third component is `true` when the run
stopped early at a failing call — a partial run.  With all injections
`false` this agrees with `migrate_0_2_0`. -/
def migrate_0_2_0_fallible (f : FsFailures) (kind : MigrationKind) (s : FsState) :
    FsState × List LogEntry × Bool :=
  match s.cargo_home with
  | none => (s, [], false)
  | some home =>
    match s.old_base with
    | none => (s, [], false)
    | some ob =>
      let old_base_path := home ++ [".cargo"]
      let old_script := home ++ [".cargo", "script-cache"]
      let new_script := home ++ ["script-cache"]
      let step1 : Option (OldBase × Option Nat × List LogEntry) :=
        match ob.script, s.new_script with
        | some _, some c' => some (ob, some c', [.didNotMove old_script new_script])
        | some c, none =>
          if kind.for_real then
            if f.rename_script then none
            else some ({ ob with script := none }, some c, [.moved old_script new_script])
          else some (ob, none, [.moved old_script new_script])
        | none, ns => some (ob, ns, [])
      match step1 with
      | none => (s, [], true)
      | some (ob1, ns1, log1) =>
        let old_binary := home ++ [".cargo", "binary-cache"]
        let new_binary := home ++ ["binary-cache"]
        let step2 : Option (OldBase × Option Nat × List LogEntry) :=
          match ob1.binary, s.new_binary with
          | some _, some c' => some (ob1, some c', [.didNotMove old_binary new_binary])
          | some c, none =>
            if kind.for_real then
              if f.rename_binary then none
              else some ({ ob1 with binary := none }, some c, [.moved old_script new_script])
            else some (ob1, none, [.moved old_script new_script])
          | none, nb => some (ob1, nb, [])
        match step2 with
        | none =>
          ({ cargo_home := s.cargo_home
             old_base := some ob1
             new_script := ns1
             new_binary := s.new_binary }, log1, true)
        | some (ob2, nb2, log2) =>
          if ob2.script.isNone && ob2.binary.isNone && !ob2.other then
            if kind.for_real && f.remove_dir then
              ({ cargo_home := s.cargo_home
                 old_base := some ob2
                 new_script := ns1
                 new_binary := nb2 }, log1 ++ log2, true)
            else
              ({ cargo_home := s.cargo_home
                 old_base := if kind.for_real then none else some ob2
                 new_script := ns1
                 new_binary := nb2 },
               log1 ++ log2 ++ [.removedEmpty old_base_path], false)
          else
            ({ cargo_home := s.cargo_home
               old_base := some ob2
               new_script := ns1
               new_binary := nb2 },
             log1 ++ log2 ++ [.notRemoving old_base_path], false)

/-- Concrete state: `CARGO_HOME=h`; the legacy root holds only
`script-cache`; neither new-location subtree exists. -/
def movable_state : FsState :=
  { cargo_home := some ["h"]
    old_base := some { script := some 0, binary := none, other := false }
    new_script := none
    new_binary := none }

/-- Concrete state: `CARGO_HOME=h`; the legacy root holds `binary-cache`
and some other entry; neither new-location subtree exists. -/
def binary_only_state : FsState :=
  { cargo_home := some ["h"]
    old_base := some { script := none, binary := some 7, other := true }
    new_script := none
    new_binary := none }

/-- Concrete state: `CARGO_HOME=h`; the legacy root holds only
`script-cache`, which also exists at the new location (a conflict). -/
def script_conflict_state : FsState :=
  { cargo_home := some ["h"]
    old_base := some { script := some 1, binary := none, other := false }
    new_script := some 2
    new_binary := none }

/-- Concrete state: `CARGO_HOME=h`; both legacy subtrees conflict with
existing new-location subtrees. -/
def both_conflict_state : FsState :=
  { cargo_home := some ["h"]
    old_base := some { script := some 3, binary := some 4, other := false }
    new_script := some 5
    new_binary := some 6 }

/-- Concrete state: `CARGO_HOME=h`; the legacy root is already gone. -/
def migrated_state : FsState :=
  { cargo_home := some ["h"]
    old_base := none
    new_script := some 1
    new_binary := none }

/-! ## PathCodec theorems -/

theorem read_path_windows_loop_write (ws : List Nat) (hw : ∀ w ∈ ws, w < 65536) :
    read_path_windows_loop (write_path_windows ws) = some ws := by
  induction ws with
  | nil => rfl
  | cons w ws ih =>
    have h1 : w < 65536 := hw w (List.mem_cons_self _ _)
    have hw' : ∀ x ∈ ws, x < 65536 := fun x hx => hw x (List.mem_cons_of_mem _ hx)
    have hdiv : w / 256 < 256 := Nat.div_lt_of_lt_mul h1
    have hstep : write_path_windows (w :: ws)
        = w % 256 :: w / 256 % 256 :: write_path_windows ws := by
      simp [write_path_windows]
    rw [hstep,
      show read_path_windows_loop (w % 256 :: w / 256 % 256 :: write_path_windows ws)
        = (read_path_windows_loop (write_path_windows ws)).map
            (fun l => (w % 256 + 256 * (w / 256 % 256)) :: l) from rfl,
      ih hw']
    simp [Nat.mod_eq_of_lt hdiv, Nat.mod_add_div]

theorem read_path_windows_loop_odd_aux (n : Nat) :
    ∀ bytes : List Nat, bytes.length ≤ n → bytes.length % 2 = 1 →
      read_path_windows_loop bytes = none := by
  induction n with
  | zero =>
    intro bytes hlen hodd
    rw [List.length_eq_zero.mp (Nat.le_zero.mp hlen)] at hodd
    simp at hodd
  | succ n ih =>
    intro bytes hlen hodd
    match bytes with
    | [] => simp at hodd
    | [a] => rfl
    | a :: b :: tl =>
      have htl : tl.length % 2 = 1 := by
        simp only [List.length_cons] at hodd
        omega
      have hle : tl.length ≤ n := by
        simp only [List.length_cons] at hlen
        omega
      simp [read_path_windows_loop, ih tl hle htl]

/-- Claim C1: decoding the encoding of a path returns the path exactly, on
both platform families — unix on arbitrary byte sequences (non-text
included), windows on arbitrary 16-bit code-unit sequences (unpaired
surrogates included). -/
theorem read_write_path_roundtrip (bytes words : List Nat)
    (hw : ∀ w ∈ words, w < 65536) :
    read_path_unix (write_path_unix bytes) = .success bytes
    ∧ read_path_windows (write_path_windows words) = .success words := by
  refine ⟨rfl, ?_⟩
  simp [read_path_windows, read_path_windows_loop_write words hw]

/-- Witness for C1 at the byte sequence `[255, 0]` (not valid UTF-8) and
the word sequence `[0xD800, 65]` (unpaired surrogate). -/
theorem read_write_path_roundtrip_witness :
    (∀ w ∈ [0xD800, 65], w < 65536)
    ∧ read_path_unix (write_path_unix [255, 0]) = .success [255, 0]
    ∧ read_path_windows (write_path_windows [0xD800, 65]) = .success [0xD800, 65] := by
  refine ⟨by decide, ?_, ?_⟩
  · exact (read_write_path_roundtrip [255, 0] [0xD800, 65] (by decide)).1
  · exact (read_write_path_roundtrip [255, 0] [0xD800, 65] (by decide)).2

/-- Counterexample to C3 as stated: on the odd-length input `[0]`, windows
`read_path` panics (the `unwrap()` on the missing high byte aborts); it
does not fail with a corruption error. -/
theorem read_path_windows_odd_no_error :
    read_path_windows [0] = .panic ∧ read_path_windows [0] ≠ .corruptionError := by
  decide

/-- Claim C3 amended: under the windows strategy, decoding an odd-length
byte sequence panics on the trailing unpaired byte rather than succeeding
or returning an error; bytes are consumed two at a time, low byte first. -/
theorem read_path_windows_odd_panics (bytes : List Nat)
    (h : bytes.length % 2 = 1) :
    read_path_windows bytes = .panic
    ∧ ∀ lo hi tl ws, read_path_windows tl = .success ws →
        read_path_windows (lo :: hi :: tl) = .success ((lo + 256 * hi) :: ws) := by
  constructor
  · simp [read_path_windows,
      read_path_windows_loop_odd_aux bytes.length bytes le_rfl h]
  · intro lo hi tl ws hs
    simp only [read_path_windows] at hs ⊢
    cases hloop : read_path_windows_loop tl with
    | none => rw [hloop] at hs; exact absurd hs (by simp)
    | some ws' =>
      rw [hloop] at hs
      simp only [ReadOutcome.success.injEq] at hs
      simp [read_path_windows_loop, hloop, hs]

/-- Witness for the amended C3 at the odd-length input `[0]`. -/
theorem read_path_windows_odd_panics_witness :
    ([0] : List Nat).length % 2 = 1 ∧ read_path_windows [0] = .panic :=
  ⟨by decide, (read_path_windows_odd_panics [0] (by decide)).1⟩

/-- Claim C10: under the unix strategy, decoding succeeds on every byte
sequence (never a corruption error, never a panic), and re-encoding the
decoded path reproduces the input bytes exactly. -/
theorem read_path_unix_total (bytes : List Nat) :
    (∃ p, read_path_unix bytes = .success p ∧ write_path_unix p = bytes)
    ∧ read_path_unix bytes ≠ .corruptionError
    ∧ read_path_unix bytes ≠ .panic :=
  ⟨⟨bytes, rfl, rfl⟩, by simp [read_path_unix], by simp [read_path_unix]⟩

/-! ## DirectoryResolver theorems -/

/-- Claim C8: unix `get_cache_dir` priority order — `$CARGO_HOME` first,
with its `.cargo` subdirectory preferred exactly when that subdirectory
exists and contains `script-cache` or `binary-cache`; else `$HOME/.cargo`;
else a Human-blamed error naming the missing variables. -/
theorem get_cache_dir_priority (e : UnixEnv) :
    (∀ h, e.cargo_home = some h →
      get_cache_dir e = .ok (
        if e.path_exists (h ++ [".cargo"])
            && (e.path_exists (h ++ [".cargo", "script-cache"])
              || e.path_exists (h ++ [".cargo", "binary-cache"]))
        then h ++ [".cargo"] else h))
    ∧ (e.cargo_home = none → ∀ h, e.home = some h →
        get_cache_dir e = .ok (h ++ [".cargo"]))
    ∧ (e.cargo_home = none → e.home = none →
        get_cache_dir e = .error (.Human, "neither $CARGO_HOME nor $HOME is defined")) := by
  refine ⟨?_, ?_, ?_⟩
  · intro h hch
    cases h1 : e.path_exists (h ++ [".cargo"]) with
    | false => simp [get_cache_dir, hch, h1]
    | true =>
      cases h2 : e.path_exists (h ++ [".cargo", "script-cache"]) with
      | true => simp [get_cache_dir, hch, h1, h2]
      | false =>
        cases h3 : e.path_exists (h ++ [".cargo", "binary-cache"]) with
        | true => simp [get_cache_dir, hch, h1, h2, h3]
        | false => simp [get_cache_dir, hch, h1, h2, h3]
  · intro hch h hh
    simp [get_cache_dir, hch, hh]
  · intro hch hh
    simp [get_cache_dir, hch, hh]

/-- Witness for C8: an environment with neither variable set yields the
Human-blamed error, and one with `CARGO_HOME=/ch` and no legacy marker
yields `/ch` itself. -/
theorem get_cache_dir_priority_witness :
    get_cache_dir { cargo_home := none, home := none, path_exists := fun _ => false }
      = .error (.Human, "neither $CARGO_HOME nor $HOME is defined")
    ∧ get_cache_dir { cargo_home := some ["ch"], home := none, path_exists := fun _ => false }
      = .ok ["ch"] := by
  constructor
  · exact (get_cache_dir_priority _).2.2 rfl rfl
  · have := (get_cache_dir_priority
      { cargo_home := some ["ch"], home := none, path_exists := fun _ => false }).1
      ["ch"] rfl
    simpa using this

/-- Counterexample to C6 as stated: on windows, with `LocalAppData`
resolving to `L` and `RoamingAppData` to `R`, `get_config_dir` and
`get_cache_dir` disagree. -/
theorem config_dir_ne_cache_dir_windows :
    get_config_dir_windows
        { known_folder := fun id => match id with
            | .LocalAppData => .ok ["L"]
            | .RoamingAppData => .ok ["R"] }
      ≠ get_cache_dir_windows
        { known_folder := fun id => match id with
            | .LocalAppData => .ok ["L"]
            | .RoamingAppData => .ok ["R"] } := by
  simp [get_config_dir_windows, get_cache_dir_windows, Except.map]

/-- Claim C6 amended: on unix, `get_config_dir` is defined as
`get_cache_dir`, so the two are extensionally equal there; on windows they
are not — cache uses `LocalAppData\Cargo` and config uses
`RoamingAppData\Cargo`, so they differ whenever those two known folders
resolve to different directories. -/
theorem config_dir_eq_cache_dir_unix_only :
    (∀ e : UnixEnv, get_config_dir e = get_cache_dir e)
    ∧ (∀ (e : WinEnv) (dL dR : FsPath),
        e.known_folder .LocalAppData = .ok dL →
        e.known_folder .RoamingAppData = .ok dR →
        dL ≠ dR →
        get_cache_dir_windows e ≠ get_config_dir_windows e) := by
  constructor
  · intro e; rfl
  · intro e dL dR hL hR hne heq
    rw [get_cache_dir_windows, get_config_dir_windows, hL, hR] at heq
    simp only [Except.map, Except.ok.injEq] at heq
    exact hne (List.append_cancel_right heq)

/-- Witness for the amended C6 at a concrete windows environment. -/
theorem config_dir_eq_cache_dir_unix_only_witness :
    get_cache_dir_windows
        { known_folder := fun id => match id with
            | .LocalAppData => .ok ["La"]
            | .RoamingAppData => .ok ["Ra"] }
      ≠ get_config_dir_windows
        { known_folder := fun id => match id with
            | .LocalAppData => .ok ["La"]
            | .RoamingAppData => .ok ["Ra"] } :=
  config_dir_eq_cache_dir_unix_only.2 _ ["La"] ["Ra"] rfl rfl (by simp)

/-! ## FreshnessOracle theorems -/

/-- Claim C9: both timestamp producers clamp to exactly zero whenever the
underlying source reports a time at or before the UNIX epoch or the file
metadata is unavailable; both yield millisecond counts since that epoch. -/
theorem timestamps_clamp_to_zero :
    (∀ sec nsec : Int, 0 ≤ nsec → sec * 1000000000 + nsec ≤ 0 →
      current_time sec nsec = 0)
    ∧ (∀ mtime : Option Int, (∀ t, mtime = some t → t ≤ 0) →
        file_last_modified_unix mtime = 0)
    ∧ (∀ lw : Option Nat, (∀ t, lw = some t → t ≤ MS_BETWEEN_1601_1970 * 10000) →
        file_last_modified_windows lw = 0) := by
  refine ⟨?_, ?_, ?_⟩
  · intro sec nsec hn h
    by_cases hs : sec < 0
    · simp [current_time, hs]
    · push_neg at hs
      have h9 : (0:Int) ≤ sec * 1000000000 := by positivity
      have hsec : sec = 0 := by nlinarith
      have hnsec : nsec = 0 := by omega
      simp [current_time, hsec, hnsec]
  · intro mtime hm
    cases mtime with
    | none => simp [file_last_modified_unix]
    | some t =>
      have ht : t ≤ 0 := hm t rfl
      simp [file_last_modified_unix, max_eq_left ht]
  · intro lw hl
    cases lw with
    | none => simp [file_last_modified_windows, MS_BETWEEN_1601_1970]
    | some t =>
      have ht : t ≤ MS_BETWEEN_1601_1970 * 10000 := hl t rfl
      have hdiv : t / 10000 ≤ MS_BETWEEN_1601_1970 := by
        have := Nat.div_le_div_right (c := 10000) ht
        simpa [Nat.mul_div_cancel] using this
      simp [file_last_modified_windows, Nat.sub_eq_zero_of_le hdiv]

/-- Witness for C9: a clock reading five seconds before the epoch, a file
mtime three seconds before the epoch, and a windows last-write time at the
epoch all yield zero. -/
theorem timestamps_clamp_to_zero_witness :
    current_time (-5) 0 = 0
    ∧ file_last_modified_unix (some (-3)) = 0
    ∧ file_last_modified_windows (some 116444736000000000) = 0 := by
  refine ⟨?_, ?_, ?_⟩
  · exact timestamps_clamp_to_zero.1 (-5) 0 (by norm_num) (by norm_num)
  · exact timestamps_clamp_to_zero.2.1 (some (-3))
      (by intro t ht; rw [Option.some_inj] at ht; omega)
  · exact timestamps_clamp_to_zero.2.2 (some 116444736000000000)
      (by intro t ht; rw [Option.some_inj] at ht; subst ht; norm_num [MS_BETWEEN_1601_1970])

/-! ## MigrationEngine theorems -/

/-- Counterexample to C2 as stated: from a state whose legacy root holds
only `script-cache` (new location absent), ForReal's moves empty the
legacy root and its log ends with the removal entry, while DryRun's log
ends with the not-removing entry — the user-facing logs differ. -/
theorem migrate_dryRun_forReal_logs_differ :
    (migrate_old_data .DryRun movable_state).2
      ≠ (migrate_old_data .ForReal movable_state).2 := by
  decide

/-- Claim C2 amended: DryRun and ForReal run the same detection logic for
the two subtrees, so their user-facing logs agree entry by entry except
possibly in the final empty-directory entry (equal `dropLast`, equal
length); DryRun performs no filesystem change.  The final entry can differ
because the emptiness check reads the filesystem after the
mode-dependent moves. -/
theorem migrate_dryRun_forReal_logs_agree (s : FsState) :
    (migrate_old_data .DryRun s).2.dropLast
      = (migrate_old_data .ForReal s).2.dropLast
    ∧ (migrate_old_data .DryRun s).2.length
      = (migrate_old_data .ForReal s).2.length
    ∧ (migrate_old_data .DryRun s).1 = s := by
  obtain ⟨ch, ob, ns, nb⟩ := s
  cases ch with
  | none => simp [migrate_old_data, migrate_0_2_0]
  | some home =>
    cases ob with
    | none => simp [migrate_old_data, migrate_0_2_0]
    | some ob =>
      obtain ⟨sc, bc, ot⟩ := ob
      cases sc <;> cases ns <;> cases bc <;> cases nb <;> cases ot <;>
        simp [migrate_old_data, migrate_0_2_0, MigrationKind.for_real]

/-- Claim C4, evaluated at the failing input: with only the legacy
`binary-cache` present (new location absent), the ForReal run does move
the subtree, but the appended log line names the *script*-cache source and
destination (platform.rs line 166), not those of the binary-cache move. -/
theorem migrate_binary_move_log_names_script_paths :
    (migrate_old_data .ForReal binary_only_state).1.new_binary = some 7
    ∧ (migrate_old_data .ForReal binary_only_state).1.old_binary = none
    ∧ (migrate_old_data .ForReal binary_only_state).2 =
        ["Moved \"h/.cargo/script-cache\" to \"h/script-cache\".",
         "Not removing \"h/.cargo\": not empty."] := by
  decide

/-- Counterexample to C5 as stated: from a state with a script-cache
conflict, the first ForReal run changes nothing, and the second ForReal
run's log is not empty (it repeats the conflict and not-removing
notices). -/
theorem migrate_second_run_log_nonempty :
    (migrate_old_data .ForReal
        (migrate_old_data .ForReal script_conflict_state).1).2 ≠ [] := by
  decide

theorem migrate_skips_migrated (t : FsState) :
    (t.old_script = none → (migrate_0_2_0 .ForReal t).1.old_script = none
      ∧ (migrate_0_2_0 .ForReal t).1.new_script = t.new_script)
    ∧ (t.old_binary = none → (migrate_0_2_0 .ForReal t).1.old_binary = none
      ∧ (migrate_0_2_0 .ForReal t).1.new_binary = t.new_binary) := by
  obtain ⟨ch, ob, ns, nb⟩ := t
  cases ch with
  | none => simp [migrate_0_2_0]
  | some home =>
    cases ob with
    | none => simp [migrate_0_2_0, FsState.old_script, FsState.old_binary]
    | some ob =>
      obtain ⟨sc, bc, ot⟩ := ob
      cases sc <;> cases ns <;> cases bc <;> cases nb <;> cases ot <;>
        simp [migrate_0_2_0, MigrationKind.for_real, FsState.old_script,
          FsState.old_binary]

/-- Claim C5 amended: after a ForReal run that completes successfully, a
second ForReal run performs no filesystem change; its log is empty when
the legacy root no longer exists, and otherwise consists only of
non-mutating notices (conflict and not-removing entries); after a partial
run — a ForReal run stopped early by a failing mutating call — a re-run
leaves every already-migrated subtree untouched (its legacy copy stays
gone, its new-location copy stays as it is). -/
theorem migrate_forReal_idempotent (s : FsState) :
    ((migrate_old_data .ForReal (migrate_old_data .ForReal s).1).1
        = (migrate_old_data .ForReal s).1
      ∧ ((migrate_old_data .ForReal s).1.old_base = none →
          (migrate_old_data .ForReal (migrate_old_data .ForReal s).1).2 = [])
      ∧ (migrate_0_2_0 .ForReal (migrate_0_2_0 .ForReal s).1).2.all
          LogEntry.is_noop = true)
    ∧ (∀ f : FsFailures,
        ((migrate_0_2_0_fallible f .ForReal s).1.old_script = none →
          (migrate_0_2_0 .ForReal (migrate_0_2_0_fallible f .ForReal s).1).1.old_script
            = none
          ∧ (migrate_0_2_0 .ForReal (migrate_0_2_0_fallible f .ForReal s).1).1.new_script
            = (migrate_0_2_0_fallible f .ForReal s).1.new_script)
        ∧ ((migrate_0_2_0_fallible f .ForReal s).1.old_binary = none →
          (migrate_0_2_0 .ForReal (migrate_0_2_0_fallible f .ForReal s).1).1.old_binary
            = none
          ∧ (migrate_0_2_0 .ForReal (migrate_0_2_0_fallible f .ForReal s).1).1.new_binary
            = (migrate_0_2_0_fallible f .ForReal s).1.new_binary)) := by
  constructor
  · obtain ⟨ch, ob, ns, nb⟩ := s
    cases ch with
    | none => simp [migrate_old_data, migrate_0_2_0]
    | some home =>
      cases ob with
      | none => simp [migrate_old_data, migrate_0_2_0]
      | some ob =>
        obtain ⟨sc, bc, ot⟩ := ob
        cases sc <;> cases ns <;> cases bc <;> cases nb <;> cases ot <;>
          simp [migrate_old_data, migrate_0_2_0, MigrationKind.for_real,
            LogEntry.is_noop]
  · intro f
    exact ⟨fun h => (migrate_skips_migrated _).1 h,
           fun h => (migrate_skips_migrated _).2 h⟩

/-- Witness for the amended C5: at a state whose legacy root is already
gone the second run's log is empty, and after a partial run on
`movable_state` whose script-cache rename failed, the re-run still leaves
the (never-migrated) binary side untouched. -/
theorem migrate_forReal_idempotent_witness :
    (migrate_old_data .ForReal (migrate_old_data .ForReal migrated_state).1).2 = []
    ∧ (migrate_0_2_0 .ForReal
        (migrate_0_2_0_fallible ⟨true, false, false⟩ .ForReal movable_state).1).1.old_binary
      = none :=
  ⟨(migrate_forReal_idempotent migrated_state).1.2.1 (by decide),
   ((migrate_forReal_idempotent movable_state).2 ⟨true, false, false⟩).2 (by decide) |>.1⟩

/-- Claim C7: for each legacy subtree, when both the legacy and the
new-location subtree exist before migration, both still exist with
unchanged contents after migration in either mode, and the user-facing
log contains the conflict line naming both paths (the rendered
`Did not move {legacy}: new location {new} already exists.` entry). -/
theorem migrate_conflict_untouched (kind : MigrationKind) (s : FsState) :
    (s.old_script.isSome = true → s.new_script.isSome = true →
      ((migrate_old_data kind s).1.old_script = s.old_script
        ∧ (migrate_old_data kind s).1.new_script = s.new_script)
      ∧ ∀ home, s.cargo_home = some home →
          (LogEntry.didNotMove (home ++ [".cargo", "script-cache"])
              (home ++ ["script-cache"])).render ∈ (migrate_old_data kind s).2)
    ∧ (s.old_binary.isSome = true → s.new_binary.isSome = true →
      ((migrate_old_data kind s).1.old_binary = s.old_binary
        ∧ (migrate_old_data kind s).1.new_binary = s.new_binary)
      ∧ ∀ home, s.cargo_home = some home →
          (LogEntry.didNotMove (home ++ [".cargo", "binary-cache"])
              (home ++ ["binary-cache"])).render ∈ (migrate_old_data kind s).2) := by
  obtain ⟨ch, ob, ns, nb⟩ := s
  cases ch with
  | none => simp [migrate_old_data, migrate_0_2_0]
  | some home =>
    cases ob with
    | none => simp [migrate_old_data, migrate_0_2_0, FsState.old_script,
        FsState.old_binary]
    | some ob =>
      obtain ⟨sc, bc, ot⟩ := ob
      cases kind <;> cases sc <;> cases ns <;> cases bc <;> cases nb <;> cases ot <;>
        simp [migrate_old_data, migrate_0_2_0, MigrationKind.for_real,
          FsState.old_script, FsState.old_binary]

/-- Witness for C7 at a state where both subtrees conflict: a ForReal run
leaves the legacy and new script-cache (and binary-cache) subtrees with
their original contents, and the log carries both conflict lines. -/
theorem migrate_conflict_untouched_witness :
    (((migrate_old_data .ForReal both_conflict_state).1.old_script
        = both_conflict_state.old_script
      ∧ (migrate_old_data .ForReal both_conflict_state).1.new_script
        = both_conflict_state.new_script)
      ∧ (LogEntry.didNotMove ["h", ".cargo", "script-cache"] ["h", "script-cache"]).render
          ∈ (migrate_old_data .ForReal both_conflict_state).2)
    ∧ (((migrate_old_data .ForReal both_conflict_state).1.old_binary
        = both_conflict_state.old_binary
      ∧ (migrate_old_data .ForReal both_conflict_state).1.new_binary
        = both_conflict_state.new_binary)
      ∧ (LogEntry.didNotMove ["h", ".cargo", "binary-cache"] ["h", "binary-cache"]).render
          ∈ (migrate_old_data .ForReal both_conflict_state).2) :=
  ⟨⟨((migrate_conflict_untouched .ForReal both_conflict_state).1 (by decide) (by decide)).1,
    ((migrate_conflict_untouched .ForReal both_conflict_state).1 (by decide) (by decide)).2
      ["h"] rfl⟩,
   ⟨((migrate_conflict_untouched .ForReal both_conflict_state).2 (by decide) (by decide)).1,
    ((migrate_conflict_untouched .ForReal both_conflict_state).2 (by decide) (by decide)).2
      ["h"] rfl⟩⟩

end CargoEval
